import Mathlib

/-!
Posts service (`main.go`): embedding and verified properties

The HTTP handlers of `main.go` are embedded as pure functions over

* a table `Store` (the rows of `posts`, in the store's natural order),
* a `ResponseWriter` value recording what `net/http` sends,
* an environment `Env` holding everything the handlers obtain from outside
  the file: driver faults, the server clock, and the store's evaluation of
  `LIKE`, date casts and column defaults.

Go `int` is the 64-bit two's complement integer; `float64` arithmetic is
modelled exactly (round to nearest, ties to even, 53-bit significand).
-/

namespace Posts

/-! ## Go scalars -/

/-- A `time.Time` instant, counted from Go's zero time. -/
abbrev Time := Int

/-- Two's complement wrap-around of Go `int` (64 bits). -/
def wrapInt (x : Int) : Int := (x + 2 ^ 63) % 2 ^ 64 - 2 ^ 63

/-- Value of a run of decimal digits, `none` when a character is not a digit. -/
def digitsVal : List Char → Option Nat :=
  List.foldl
    (fun acc c =>
      match acc with
      | none => none
      | some n => if c.isDigit then some (n * 10 + (c.toNat - 48)) else none)
    (some 0)

/-- Function `strconv.Atoi` with the error dropped (`page, _ := strconv.Atoi(..)`):
an optional sign followed by decimal digits; `0` on a syntax error, the nearest
`int` on a range error. -/
def atoi (s : String) : Int :=
  match s.data with
  | [] => 0
  | c :: cs =>
    let neg : Bool := decide (c = '-')
    let ds : List Char := if c = '-' ∨ c = '+' then cs else c :: cs
    if ds = [] then 0
    else
      match digitsVal ds with
      | none => 0
      | some n =>
        if neg then (if 2 ^ 63 < n then -(2 ^ 63 : Int) else -(n : Int))
        else (if 2 ^ 63 - 1 < n then (2 ^ 63 - 1 : Int) else (n : Int))

/-! ## `float64` -/

/-- Auxiliary loop of `log2`. -/
def log2Aux : Nat → Nat → Nat
  | 0, _ => 0
  | fuel + 1, n => if 2 ≤ n then log2Aux fuel (n / 2) + 1 else 0

/-- Position of the leading binary digit: `2 ^ log2 n ≤ n < 2 ^ (log2 n + 1)`. -/
def log2 (n : Nat) : Nat := log2Aux n n

/-- Numerator and denominator of `n / (d * 2 ^ e)`. -/
def scaled (n d : Nat) (e : Int) : Nat × Nat :=
  if 0 ≤ e then (n, d * 2 ^ e.toNat) else (n * 2 ^ (-e).toNat, d)

/-- Nearest integer to `N / D`, ties to the even one. -/
def roundHalfEven (N D : Nat) : Nat :=
  if D < 2 * (N % D) ∨ (2 * (N % D) = D ∧ (N / D) % 2 = 1) then N / D + 1 else N / D

/-- Rounding of the positive rational `n / d` to a 53-bit significand: the
result `(m, e)` stands for `m * 2 ^ e`, the exponent being chosen so that
`2 ^ 52 ≤ n / (d * 2 ^ e) < 2 ^ 53` before rounding.  (The exponent range of
binary64 is not modelled: quotients of 64-bit integers never leave it.) -/
def roundQ (n d : Nat) : Nat × Int :=
  let e0 : Int := (log2 n : Int) - (log2 d : Int) - 52
  let e : Int := if 2 ^ 52 * (scaled n d e0).2 ≤ (scaled n d e0).1 then e0 else e0 - 1
  (roundHalfEven (scaled n d e).1 (scaled n d e).2, e)

/-- A binary64 value: `fin neg m e` is `(-1) ^ neg * m * 2 ^ e`. -/
inductive F64 where
  | fin (neg : Bool) (m : Nat) (e : Int)
  | inf (neg : Bool)
  | nan
  deriving DecidableEq, Repr

/-- Magnitude of the conversion of a natural number: exact up to `2 ^ 53`,
rounded above. -/
def roundNat (n : Nat) : Nat × Int :=
  if n ≤ 2 ^ 53 then (n, 0) else roundQ n 1

/-- Conversion `float64(i)` of a Go `int`. -/
def float64 (i : Int) : F64 :=
  F64.fin (decide (i < 0)) (roundNat i.natAbs).1 (roundNat i.natAbs).2

/-- Operator `/` on `float64`. -/
def F64.div : F64 → F64 → F64
  | .nan, _ => .nan
  | _, .nan => .nan
  | .inf _, .inf _ => .nan
  | .inf s, .fin t _ _ => .inf (xor s t)
  | .fin s _ _, .inf t => .fin (xor s t) 0 0
  | .fin s ma ea, .fin t mb eb =>
    if mb = 0 then (if ma = 0 then .nan else .inf (xor s t))
    else if ma = 0 then .fin (xor s t) 0 0
    else
      .fin (xor s t)
        (roundQ (ma * 2 ^ (ea - min ea eb).toNat) (mb * 2 ^ (eb - min ea eb).toNat)).1
        (roundQ (ma * 2 ^ (ea - min ea eb).toNat) (mb * 2 ^ (eb - min ea eb).toNat)).2

/-- Function `math.Ceil`. -/
def F64.Ceil : F64 → F64
  | .fin s m e =>
    if 0 ≤ e then .fin s m e
    else if s then .fin true (m / 2 ^ (-e).toNat) 0
    else .fin false ((m + 2 ^ (-e).toNat - 1) / 2 ^ (-e).toNat) 0
  | x => x

/-- Conversion `int(f)`: the fraction is discarded; when the value does not
fit Go leaves the result to the implementation, given here by `undef`. -/
def F64.toInt (undef : F64 → Int) : F64 → Int
  | .fin s m e =>
    let a : Nat := if 0 ≤ e then m * 2 ^ e.toNat else m / 2 ^ (-e).toNat
    let v : Int := if s then -(a : Int) else (a : Int)
    if -(2 ^ 63 : Int) ≤ v ∧ v < 2 ^ 63 then v else undef (.fin s m e)
  | x => undef x

/-! ## Data model -/

/-- Type `Post` of `main.go`. -/
structure Post where
  ID : String
  Title : String
  Content : String
  Published : Bool
  CreatedAt : Time
  ViewCount : Int
  Updated_at : Time
  StartDateStr : Time
  EndDateStr : Time
  deriving DecidableEq, Repr

/-- The zero value `var post Post`. -/
def Post.zero : Post := ⟨"", "", "", false, 0, 0, 0, 0, 0⟩

/-- Type `Response` of `main.go`; a Go slice is `none` when it is `nil`. -/
structure Response where
  Posts : Option (List Post)
  Count : Int
  Limit : Int
  Page : Int
  TotalPage : Int
  deriving DecidableEq, Repr

/-- A row of table `posts`. -/
structure Row where
  id : String
  title : String
  content : String
  published : Bool
  created_at : Time
  updated_at : Option Time
  view_count : Int
  deriving DecidableEq, Repr

/-- The table `posts`, in the order the store enumerates it. -/
abbrev Store := List Row

/-- JSON documents as `encoding/json` emits them. -/
inductive Json where
  | null
  | bool (b : Bool)
  | num (n : Int)
  | str (s : String)
  | time (t : Time)
  | arr (xs : List Json)
  | obj (kvs : List (String × Json))

/-- Member `k` of a JSON object. -/
def Json.field (k : String) : Json → Option Json
  | .obj kvs => (kvs.find? (fun kv => decide (kv.1 = k))).map Prod.snd
  | _ => none

/-- Encoding of a `Post` (the fields tagged `json:"-"` are left out). -/
def Post.toJson (p : Post) : Json :=
  .obj [("id", .str p.ID), ("title", .str p.Title), ("content", .str p.Content),
    ("published", .bool p.Published), ("created_at", .time p.CreatedAt)]

/-- Encoding of a `[]Post`: a `nil` slice is `null`, any other an array. -/
def postsToJson : Option (List Post) → Json
  | none => .null
  | some ps => .arr (ps.map Post.toJson)

/-- Encoding of a `Response`. -/
def Response.toJson (r : Response) : Json :=
  .obj [("posts", postsToJson r.Posts), ("count", .num r.Count), ("limit", .num r.Limit),
    ("page", .num r.Page), ("total_page", .num r.TotalPage)]

/-- Encoding of `map[string]string` with the single key `k`. -/
def mapToJson (k v : String) : Json := .obj [(k, .str v)]

/-! ## `http.ResponseWriter` -/

/-- State of a response: the header map the handler edits, and what has been
sent.  The headers sent are frozen by the first `WriteHeader`. -/
structure ResponseWriter where
  header : List (String × String)
  wroteHeader : Bool
  status : Nat
  sent : List (String × String)
  body : List Json

/-- The writer a handler receives. -/
def ResponseWriter.fresh : ResponseWriter := ⟨[], false, 0, [], []⟩

/-- Call `w.Header().Set(k, v)`. -/
def ResponseWriter.Set (w : ResponseWriter) (k v : String) : ResponseWriter :=
  { w with header := (k, v) :: w.header.filter (fun kv => decide (kv.1 ≠ k)) }

/-- Call `w.WriteHeader(code)`: only the first call has an effect. -/
def ResponseWriter.WriteHeader (w : ResponseWriter) (code : Nat) : ResponseWriter :=
  if w.wroteHeader then w
  else { w with wroteHeader := true, status := code, sent := w.header }

/-- Call `json.NewEncoder(w).Encode(data)`: writes the body, sending the
header with status 200 first when none was sent. -/
def ResponseWriter.Encode (w : ResponseWriter) (data : Json) : ResponseWriter :=
  { w.WriteHeader 200 with body := (w.WriteHeader 200).body ++ [data] }

/-- Value of header `k` in the response sent. -/
def ResponseWriter.sentHeader (w : ResponseWriter) (k : String) : Option String :=
  (w.sent.find? (fun kv => decide (kv.1 = k))).map Prod.snd

/-- Function `respondWithJSON`. -/
def respondWithJSON (w : ResponseWriter) (data : Json) (statusCode : Nat) : ResponseWriter :=
  ((w.Set "Content-Type" "application/json").WriteHeader statusCode).Encode data

/-- Function `respondWithError`. -/
def respondWithError (w : ResponseWriter) (statusCode : Nat) (errorMessage : String) :
    ResponseWriter :=
  ((w.WriteHeader statusCode).Set "Content-Type" "application/json").Encode
    (mapToJson "error" errorMessage)

/-! ## Environment and store -/

/-- Kinds of driver call that can fail for reasons outside the table. -/
inductive Call where
  | connect | count | query | scan | queryRow | exec | prepare
  | stmtExec | stmtQueryRow | rowsAffected
  deriving DecidableEq, Repr

/-- What the handlers take from outside `main.go`. -/
structure Env where
  /-- An injected failure of a driver call, with its message. -/
  fault : Call → Option String
  /-- Result of `time.Now()`. -/
  now : Time
  /-- Store: `title LIKE '%' || $1 || '%'`, applied to a title and the parameter. -/
  titleLike : String → String → Bool
  /-- Store: cast of a text parameter to a date (a day number), `none` when rejected. -/
  castDate : String → Option Int
  /-- Store: `created_at::date`. -/
  dateOf : Time → Int
  /-- Store: the timestamp kept for a value written to a timestamp column. -/
  storedTime : Time → Time
  /-- Store: the identifier generated for a new row. -/
  genId : Store → String
  /-- Store: column defaults of `updated_at` and `view_count`. -/
  defUpdatedAt : Option Time
  defViewCount : Int
  /-- Store: the largest value column `view_count` holds. -/
  viewCountMax : Int
  /-- Library: `time.Parse("2006-01-02", s)`, `none` on error. -/
  timeParse : String → Option Time
  /-- Library: `t.Format("2006-01-02")`. -/
  timeFormat : Time → String
  /-- Platform: result of `int(f)` when `f` does not fit. -/
  intUndef : F64 → Int

/-- Function `connectToDatabase`. -/
def connectToDatabase (env : Env) : Except String Unit :=
  match env.fault .connect with
  | some e => .error e
  | none => .ok ()

/-- Clause `LIMIT $l OFFSET $o`; the store rejects negative values. -/
def limitOffset (rows : List Row) (limit offset : Int) : Except String (List Row) :=
  if limit < 0 then .error "pq: LIMIT must not be negative"
  else if offset < 0 then .error "pq: OFFSET must not be negative"
  else .ok ((rows.drop offset.toNat).take limit.toNat)

/-- Rows of `WHERE (title LIKE '%' || $1 || '%') AND (created_at::date = $2)`. -/
def matchDate (env : Env) (s : Store) (title : String) (d : Int) : List Row :=
  s.filter (fun r => env.titleLike r.title title && decide (env.dateOf r.created_at = d))

/-- Rows of `WHERE (created_at::date BETWEEN $1 AND $2)`. -/
def matchRange (env : Env) (s : Store) (d1 d2 : Int) : List Row :=
  s.filter (fun r => decide (d1 ≤ env.dateOf r.created_at) && decide (env.dateOf r.created_at ≤ d2))

/-- Columns `id, title, content, published, created_at` scanned into a `Post`. -/
def Row.toPost (r : Row) : Post :=
  { Post.zero with
    ID := r.id, Title := r.title, Content := r.content, Published := r.published,
    CreatedAt := r.created_at }

/-- Built-in `append` on a possibly `nil` slice. -/
def appendPost : Option (List Post) → Post → Option (List Post)
  | none, p => some [p]
  | some ps, p => some (ps ++ [p])

/-- Built-in `len`. -/
def len : Option (List Post) → Nat
  | none => 0
  | some ps => ps.length

/-- Loop `for rows.Next() { rows.Scan(..); posts = append(posts, post) }`
starting from `var posts []Post`. -/
def scanRows (env : Env) : List Row → Option (List Post) → Except String (Option (List Post))
  | [], posts => .ok posts
  | r :: rs, posts =>
    match env.fault .scan with
    | some e => .error e
    | none => scanRows env rs (appendPost posts r.toPost)

/-- Function `getDataCount`. -/
def getDataCount (env : Env) (s : Store) : Except String Int :=
  match connectToDatabase env with
  | .error e => .error e
  | .ok _ =>
    match env.fault .count with
    | some e => .error e
    | none => .ok ((s.filter (fun r => r.published)).length : Int)

/-- Expression `int(math.Ceil(float64(totalPosts) / float64(limit)))`. -/
def ceilDiv (env : Env) (totalPosts limit : Int) : Int :=
  (((float64 totalPosts).div (float64 limit)).Ceil).toInt env.intUndef

/-- Defaulting of `page`: `if page == 0 { page = 1 }`. -/
def pageOf (pageStr : String) : Int :=
  if atoi pageStr = 0 then 1 else atoi pageStr

/-- Defaulting of `limit` in `getPosts` and `getPostsDate`: a failure of
`getDataCount` is ignored and leaves `limit` at 0. -/
def limitOf (env : Env) (s : Store) (limitStr : String) : Int :=
  if atoi limitStr = 0 then
    (match getDataCount env s with
     | .error _ => atoi limitStr
     | .ok count => count)
  else atoi limitStr

/-- Expression `(page - 1) * limit` on Go `int`. -/
def offsetOf (page limit : Int) : Int := wrapInt (wrapInt (page - 1) * limit)

/-- Defaulting of `limit` in `getPostsDateRange`: a failure of `getDataCount`
ends the request. -/
def limitOfRange (env : Env) (s : Store) (limitStr : String) : Except String Int :=
  if atoi limitStr = 0 then getDataCount env s else .ok (atoi limitStr)

/-- Query of `getPostsDate`. -/
def queryDate (env : Env) (s : Store) (title createdAt : String) (limit offset : Int) :
    Except String (List Row) :=
  match env.fault .query with
  | some e => .error e
  | none =>
    match env.castDate createdAt with
    | none => .error "pq: invalid input syntax for type date"
    | some d => limitOffset (matchDate env s title d) limit offset

/-- Count of `getPostsDate`, which adds `published = true`. -/
def countDate (env : Env) (s : Store) (title createdAt : String) : Except String Int :=
  match env.fault .queryRow with
  | some e => .error e
  | none =>
    match env.castDate createdAt with
    | none => .error "pq: invalid input syntax for type date"
    | some d => .ok (((matchDate env s title d).filter (fun r => r.published)).length : Int)

/-- Query of `getPostsDateRange`. -/
def queryRange (env : Env) (s : Store) (startDate endDate : String) (limit offset : Int) :
    Except String (List Row) :=
  match env.fault .query with
  | some e => .error e
  | none =>
    match env.castDate startDate, env.castDate endDate with
    | some d1, some d2 => limitOffset (matchRange env s d1 d2) limit offset
    | _, _ => .error "pq: invalid input syntax for type date"

/-- Count of `getPostsDateRange`. -/
def countRange (env : Env) (s : Store) (startDate endDate : String) : Except String Int :=
  match env.fault .queryRow with
  | some e => .error e
  | none =>
    match env.castDate startDate, env.castDate endDate with
    | some d1, some d2 => .ok ((matchRange env s d1 d2).length : Int)
    | _, _ => .error "pq: invalid input syntax for type date"

/-! ## Handlers -/

/-- Handler `getPostsDate` (`GET /posts/date`). -/
def getPostsDate (env : Env) (s : Store) (w : ResponseWriter)
    (pageStr limitStr title createdAt : String) : ResponseWriter :=
  let page := pageOf pageStr
  let limit := limitOf env s limitStr
  let offset := offsetOf page limit
  match connectToDatabase env with
  | .error e => respondWithError w 500 e
  | .ok _ =>
    match queryDate env s title createdAt limit offset with
    | .error e => respondWithError w 500 e
    | .ok rows =>
      match scanRows env rows none with
      | .error e => respondWithError w 500 e
      | .ok posts =>
        if len posts = 0 then respondWithError w 404 "The searched post was not found."
        else
          match countDate env s title createdAt with
          | .error e => respondWithError w 500 e
          | .ok totalPosts =>
            respondWithJSON w
              (Response.toJson
                { Posts := posts, Count := (len posts : Int), Limit := limit, Page := page,
                  TotalPage := ceilDiv env totalPosts limit })
              200

/-- Handler `getPostsDateRange` (`POST /posts/dateRange`); `body` is the result
of decoding the request body into `StartDate`, `EndDate`. -/
def getPostsDateRange (env : Env) (s : Store) (w : ResponseWriter)
    (body : Except String (String × String)) (pageStr limitStr : String) : ResponseWriter :=
  match body with
  | .error e => respondWithError w 400 e
  | .ok (StartDate, EndDate) =>
    if StartDate = "" then respondWithError w 400 "start_date is required"
    else if EndDate = "" then respondWithError w 400 "end_date is required"
    else
      match env.timeParse StartDate with
      | none => respondWithError w 400 "Invalid start_date format. Use yyyy-mm-dd."
      | some startDate =>
        match env.timeParse EndDate with
        | none => respondWithError w 400 "Invalid end_date format. Use yyyy-mm-dd."
        | some endDate =>
          match connectToDatabase env with
          | .error e => respondWithError w 500 e
          | .ok _ =>
            let page := pageOf pageStr
            match limitOfRange env s limitStr with
            | .error e => respondWithError w 500 e
            | .ok limit =>
              let offset := offsetOf page limit
              match queryRange env s (env.timeFormat startDate) (env.timeFormat endDate)
                  limit offset with
              | .error e => respondWithError w 500 e
              | .ok rows =>
                match scanRows env rows none with
                | .error e => respondWithError w 500 e
                | .ok posts =>
                  match countRange env s (env.timeFormat startDate) (env.timeFormat endDate) with
                  | .error e => respondWithError w 500 e
                  | .ok totalPosts =>
                    respondWithJSON w
                      (Response.toJson
                        { Posts := posts, Count := (len posts : Int), Limit := limit,
                          Page := page, TotalPage := ceilDiv env totalPosts limit })
                      200

/-- Statement `INSERT INTO posts (title, content, published, created_at) VALUES ..`:
the row added to the table. -/
def insertedRow (env : Env) (s : Store) (title content : String) (published : Bool)
    (created_at : Time) : Row :=
  { id := env.genId s, title := title, content := content, published := published,
    created_at := env.storedTime created_at, updated_at := env.defUpdatedAt,
    view_count := env.defViewCount }

/-- Handler `createPostNew` (`POST /posts`); `body` is the result of decoding
the request body into a `Post`. -/
def createPostNew (env : Env) (s : Store) (w : ResponseWriter) (body : Except String Post) :
    Store × ResponseWriter :=
  match body with
  | .error e => (s, respondWithError w 400 e)
  | .ok post0 =>
    if post0.Title = "" then (s, respondWithError w 400 "title is required")
    else
      let post1 : Post := if post0.Content = "" then { post0 with Content := "" } else post0
      let post2 : Post := { post1 with Published := false }
      match connectToDatabase env with
      | .error e => (s, respondWithError w 500 e)
      | .ok _ =>
        match env.fault .exec with
        | some e => (s, respondWithError w 500 e)
        | none =>
          match env.fault .prepare with
          | some e => (s, respondWithError w 500 e)
          | none =>
            let now := env.now
            match env.fault .stmtQueryRow with
            | some _ => (s, respondWithError w 500 "error message")
            | none =>
              let row := insertedRow env s post2.Title post2.Content post2.Published now
              let post3 : Post := { post2 with ID := row.id, CreatedAt := row.created_at }
              (s ++ [row], respondWithJSON (w.WriteHeader 201) (Post.toJson post3) 201)

/-- Handler `deletePost` (`DELETE /posts/{id}`). -/
def deletePost (env : Env) (s : Store) (w : ResponseWriter) (postID : String) :
    Store × ResponseWriter :=
  match connectToDatabase env with
  | .error e => (s, respondWithError w 500 e)
  | .ok _ =>
    match env.fault .prepare with
    | some e => (s, respondWithError w 500 e)
    | none =>
      match env.fault .stmtExec with
      | some _ => (s, respondWithError w 500 "Failed to delete")
      | none =>
        let s1 := s.filter (fun r => decide (r.id ≠ postID))
        let rowsAffected : Int := ((s.length - s1.length : Nat) : Int)
        match env.fault .rowsAffected with
        | some _ => (s1, respondWithError w 500 "Failed to delete")
        | none =>
          if rowsAffected = 0 then
            (s1, respondWithError w 404 "The post you want to delete was not found.")
          else (s1, respondWithJSON w (mapToJson "message" "Successfully deleted.") 200)

/-! ## Observations on a response -/

/-- Member `k` of the JSON document written as the body. -/
def respField (w : ResponseWriter) (k : String) : Option Json :=
  match w.body with
  | [j] => j.field k
  | _ => none

/-- No driver call fails for a reason outside the table. -/
def NoFault (env : Env) : Prop := ∀ c, env.fault c = none

/-- Whether `p` occurs in `t` as a contiguous run. -/
def containsRun (p : List Char) : List Char → Bool
  | [] => p.isEmpty
  | c :: cs => p.isPrefixOf (c :: cs) || containsRun p cs

/-- Days from 0001-01-01 to the civil date `y-m-d` (proleptic Gregorian). -/
def daysFromCivil (y m d : Nat) : Nat :=
  let y1 := if m ≤ 2 then y - 1 else y
  let mp := (m + 9) % 12
  let doy := (153 * mp + 2) / 5 + d - 1
  y1 * 365 + y1 / 4 - y1 / 100 + y1 / 400 + doy - 306

/-- Civil date `(y, m, d)` of a day number counted from 0001-01-01. -/
def civilFromDays (z : Nat) : Nat × Nat × Nat :=
  let z1 := z + 306
  let era := z1 / 146097
  let doe := z1 % 146097
  let yoe := (doe - doe / 1460 + doe / 36524 - doe / 146096) / 365
  let doy := doe - (365 * yoe + yoe / 4 - yoe / 100)
  let mp := (5 * doy + 2) / 153
  let d := doy - (153 * mp + 2) / 5 + 1
  let m := if mp < 10 then mp + 3 else mp - 9
  (yoe + era * 400 + (if m ≤ 2 then 1 else 0), m, d)

/-- Length of month `m` of year `y`. -/
def daysIn (y m : Nat) : Nat :=
  if m = 2 then (if y % 4 = 0 ∧ (y % 100 ≠ 0 ∨ y % 400 = 0) then 29 else 28)
  else if m = 4 ∨ m = 6 ∨ m = 9 ∨ m = 11 then 30 else 31

/-- Day number of a text `YYYY-MM-DD` with a year from 0001 on, `none` otherwise. -/
def parseYMD (s : String) : Option Nat :=
  match s.data with
  | [a, b, c, d, h1, e, f, h2, g, h] =>
    if h1 = '-' ∧ h2 = '-' then
      match digitsVal [a, b, c, d], digitsVal [e, f], digitsVal [g, h] with
      | some y, some m, some dd =>
        if 1 ≤ m ∧ m ≤ 12 ∧ 1 ≤ dd ∧ dd ≤ daysIn y m ∧ 1 ≤ y then some (daysFromCivil y m dd)
        else none
      | _, _, _ => none
    else none
  | _ => none

/-- Decimal digits of `n`, padded with zeros to `width` places. -/
def padDigits : Nat → Nat → List Char
  | 0, _ => []
  | width + 1, n => padDigits width (n / 10) ++ [Char.ofNat (48 + n % 10)]

/-- Text `YYYY-MM-DD` of a day number. -/
def formatYMD (z : Nat) : String :=
  String.mk (padDigits 4 (civilFromDays z).1 ++ ['-'] ++ padDigits 2 (civilFromDays z).2.1
    ++ ['-'] ++ padDigits 2 (civilFromDays z).2.2)

/-- The reference environment: no fault, clock at noon of 2024-03-01. -/
def refEnv : Env where
  fault := fun _ => none
  now := 63844891200
  titleLike := fun t p => containsRun p.data t.data
  castDate := fun s => (parseYMD s).map Int.ofNat
  dateOf := fun t => t / 86400
  storedTime := fun t => t
  genId := fun s => String.mk (padDigits 4 (s.length + 1))
  defUpdatedAt := none
  defViewCount := 0
  viewCountMax := 9223372036854775807
  timeParse := fun s => (parseYMD s).map (fun z => (Int.ofNat z) * 86400)
  timeFormat := fun t => formatYMD (t / 86400).toNat
  intUndef := fun _ => -9223372036854775808

/-- A small table: two published posts and a draft. -/
def refStore : Store :=
  [ ⟨"0001", "Go tips", "a", true, 63844848000, none, 3⟩,
    ⟨"0002", "Draft", "b", false, 63844934400, none, 0⟩,
    ⟨"0003", "Lean tips", "c", true, 63845020800, none, 7⟩ ]

/-- The slice built by the scan loop: `nil` when there is no row. -/
def scanned (rows : List Row) : Option (List Post) :=
  if rows = [] then none else some (rows.map Row.toPost)

theorem scanRows_some (env : Env) (h : env.fault .scan = none) (rows : List Row)
    (ps : List Post) : scanRows env rows (some ps) = .ok (some (ps ++ rows.map Row.toPost)) := by
  induction rows generalizing ps with
  | nil => simp [scanRows]
  | cons r rs ih => simp [scanRows, h, appendPost, ih]

theorem scanRows_ok (env : Env) (h : env.fault .scan = none) (rows : List Row) :
    scanRows env rows none = .ok (scanned rows) := by
  cases rows with
  | nil => simp [scanRows, scanned]
  | cons r rs => simp [scanRows, h, appendPost, scanRows_some env h, scanned]

theorem len_scanned (rows : List Row) : len (scanned rows) = rows.length := by
  cases rows <;> simp [scanned, len]

theorem limitOffset_ok (rows : List Row) (limit offset : Int) (hl : 0 ≤ limit)
    (ho : 0 ≤ offset) :
    limitOffset rows limit offset = .ok ((rows.drop offset.toNat).take limit.toNat) := by
  unfold limitOffset
  rw [if_neg (by omega), if_neg (by omega)]

theorem connect_ok (env : Env) (h : env.fault .connect = none) :
    connectToDatabase env = .ok () := by
  simp [connectToDatabase, h]

theorem respField_envelope (r : Response) (c : Nat) :
    respField (respondWithJSON .fresh (Response.toJson r) c) "posts" = some (postsToJson r.Posts) ∧
    respField (respondWithJSON .fresh (Response.toJson r) c) "count" = some (.num r.Count) ∧
    respField (respondWithJSON .fresh (Response.toJson r) c) "limit" = some (.num r.Limit) ∧
    respField (respondWithJSON .fresh (Response.toJson r) c) "page" = some (.num r.Page) ∧
    respField (respondWithJSON .fresh (Response.toJson r) c) "total_page"
      = some (.num r.TotalPage) :=
  ⟨rfl, rfl, rfl, rfl, rfl⟩

theorem getPostsDateRange_ok (env : Env) (s : Store) (StartDate EndDate pageStr limitStr : String)
    (ts te : Time) (d1 d2 L : Int) (hf : NoFault env)
    (hs : StartDate ≠ "") (he : EndDate ≠ "")
    (hps : env.timeParse StartDate = some ts) (hpe : env.timeParse EndDate = some te)
    (hc1 : env.castDate (env.timeFormat ts) = some d1)
    (hc2 : env.castDate (env.timeFormat te) = some d2)
    (hl : limitOfRange env s limitStr = .ok L) (hL0 : 0 ≤ L)
    (ho : 0 ≤ offsetOf (pageOf pageStr) L) :
    getPostsDateRange env s .fresh (.ok (StartDate, EndDate)) pageStr limitStr
      = respondWithJSON .fresh
          (Response.toJson
            { Posts := scanned (((matchRange env s d1 d2).drop
                  (offsetOf (pageOf pageStr) L).toNat).take L.toNat),
              Count := ((((matchRange env s d1 d2).drop
                  (offsetOf (pageOf pageStr) L).toNat).take L.toNat).length : Int),
              Limit := L, Page := pageOf pageStr,
              TotalPage := ceilDiv env ((matchRange env s d1 d2).length : Int) L }) 200 := by
  unfold getPostsDateRange
  simp only [hs, he, if_false, hps, hpe, connect_ok env (hf _), hl, queryRange, hf Call.query,
    hc1, hc2, limitOffset_ok _ _ _ hL0 ho, scanRows_ok env (hf _), countRange, hf Call.queryRow,
    len_scanned]

theorem getPostsDate_ok_empty (env : Env) (s : Store) (pageStr limitStr title createdAt : String)
    (d : Int) (hf : NoFault env) (hd : env.castDate createdAt = some d)
    (hl : 0 ≤ limitOf env s limitStr)
    (ho : 0 ≤ offsetOf (pageOf pageStr) (limitOf env s limitStr))
    (hno : matchDate env s title d = []) :
    getPostsDate env s .fresh pageStr limitStr title createdAt
      = respondWithError .fresh 404 "The searched post was not found." := by
  unfold getPostsDate
  simp only [connect_ok env (hf _), queryDate, hf Call.query, hd, limitOffset_ok _ _ _ hl ho,
    hno, List.drop_nil, List.take_nil, scanRows, len, if_true]

theorem createPostNew_ok (env : Env) (s : Store) (post : Post) (hf : NoFault env)
    (ht : post.Title ≠ "") :
    createPostNew env s .fresh (.ok post)
      = (s ++ [insertedRow env s post.Title post.Content false env.now],
          respondWithJSON (ResponseWriter.fresh.WriteHeader 201)
            (Post.toJson
              { post with
                Published := false, ID := env.genId s,
                CreatedAt := env.storedTime env.now }) 201) := by
  unfold createPostNew
  simp only [ht, if_false, connect_ok env (hf _), hf Call.exec, hf Call.prepare,
    hf Call.stmtQueryRow]
  by_cases hc : post.Content = ""
  · simp only [hc, if_true, insertedRow]
  · simp only [hc, if_false, insertedRow]

theorem respField_post_created (p : Post) (c : Nat) :
    respField (respondWithJSON (ResponseWriter.fresh.WriteHeader 201) (Post.toJson p) c) "id"
      = some (.str p.ID) ∧
    respField (respondWithJSON (ResponseWriter.fresh.WriteHeader 201) (Post.toJson p) c) "title"
      = some (.str p.Title) ∧
    respField (respondWithJSON (ResponseWriter.fresh.WriteHeader 201) (Post.toJson p) c) "content"
      = some (.str p.Content) ∧
    respField (respondWithJSON (ResponseWriter.fresh.WriteHeader 201) (Post.toJson p) c)
      "published" = some (.bool p.Published) ∧
    respField (respondWithJSON (ResponseWriter.fresh.WriteHeader 201) (Post.toJson p) c)
      "created_at" = some (.time p.CreatedAt) :=
  ⟨rfl, rfl, rfl, rfl, rfl⟩

theorem deletePost_ok (env : Env) (s : Store) (postID : String) (hf : NoFault env) :
    deletePost env s .fresh postID
      = (s.filter (fun r => decide (r.id ≠ postID)),
          if (s.filter (fun r => decide (r.id ≠ postID))).length = s.length then
            respondWithError .fresh 404 "The post you want to delete was not found."
          else respondWithJSON .fresh (mapToJson "message" "Successfully deleted.") 200) := by
  unfold deletePost
  simp only [connect_ok env (hf _), hf Call.prepare, hf Call.stmtExec, hf Call.rowsAffected]
  have hle := List.length_filter_le (fun r : Row => decide (r.id ≠ postID)) s
  by_cases h : (s.filter (fun r => decide (r.id ≠ postID))).length = s.length
  · rw [if_pos h, if_pos (by omega)]
  · rw [if_neg h, if_neg (by omega)]

theorem filter_ne_length_eq_iff (s : Store) (postID : String) :
    (s.filter (fun r => decide (r.id ≠ postID))).length = s.length ↔ ∀ r ∈ s, r.id ≠ postID := by
  rw [List.filter_length_eq_length]
  simp

/-- C3: in `createPostNew`, for a decoded body: if the title is empty the
response is 400 and no row is inserted; if it is not empty and the store calls
succeed, exactly one row is added, with the supplied title and content,
`published = false` whatever the body says, `created_at` taken from the
server clock and not from the body, and the response is 201 with that title
and content, `published = false`, the id the store generated and the
`created_at` the store returned. -/
theorem C3_createPostNew_row (env : Env) (s : Store) (post : Post) :
    (post.Title = "" →
      (createPostNew env s .fresh (.ok post)).2.status = 400 ∧
      (createPostNew env s .fresh (.ok post)).1 = s) ∧
    (post.Title ≠ "" → NoFault env →
      (∃ row : Row,
        (createPostNew env s .fresh (.ok post)).1 = s ++ [row] ∧
        row.id = env.genId s ∧ row.title = post.Title ∧ row.content = post.Content ∧
        row.published = false ∧ row.created_at = env.storedTime env.now) ∧
      (createPostNew env s .fresh (.ok post)).2.status = 201 ∧
      respField (createPostNew env s .fresh (.ok post)).2 "id" = some (.str (env.genId s)) ∧
      respField (createPostNew env s .fresh (.ok post)).2 "title" = some (.str post.Title) ∧
      respField (createPostNew env s .fresh (.ok post)).2 "content"
        = some (.str post.Content) ∧
      respField (createPostNew env s .fresh (.ok post)).2 "published" = some (.bool false) ∧
      respField (createPostNew env s .fresh (.ok post)).2 "created_at"
        = some (.time (env.storedTime env.now))) := by
  constructor
  · intro ht
    have h : createPostNew env s .fresh (.ok post)
        = (s, respondWithError .fresh 400 "title is required") := by
      unfold createPostNew
      simp only [ht, if_true]
    rw [h]
    exact ⟨rfl, rfl⟩
  · intro ht hf
    rw [createPostNew_ok env s post hf ht]
    refine ⟨⟨_, rfl, rfl, rfl, rfl, rfl, rfl⟩, rfl, ?_⟩
    exact respField_post_created _ 201

/-- C3, witness: `POST /posts` with title `A`, content `b` and `published = true`
over the reference table. -/
theorem C3_createPostNew_row_witness :
    ("A" : String) ≠ "" ∧ NoFault refEnv ∧
    (createPostNew refEnv refStore .fresh
      (.ok { Post.zero with Title := "A", Content := "b", Published := true })).1
      = refStore ++ [⟨"0004", "A", "b", false, 63844891200, none, 0⟩] ∧
    (createPostNew refEnv refStore .fresh
      (.ok { Post.zero with Title := "A", Content := "b", Published := true })).2.status = 201 ∧
    respField (createPostNew refEnv refStore .fresh
      (.ok { Post.zero with Title := "A", Content := "b", Published := true })).2 "published"
      = some (.bool false) :=
  ⟨by decide, fun _ => rfl, by decide,
    ((C3_createPostNew_row refEnv refStore
      { Post.zero with Title := "A", Content := "b", Published := true }).2
        (by decide) (fun _ => rfl)).2.1,
    ((C3_createPostNew_row refEnv refStore
      { Post.zero with Title := "A", Content := "b", Published := true }).2
        (by decide) (fun _ => rfl)).2.2.2.2.2.1⟩

/-! ## C4: the view counter -/

/-- C5: in `deletePost`, when the store calls succeed, the rows with the given
id are removed and every other row is left as it was, in place; the response
is 200 exactly when at least one row was removed and 404 exactly when none
was; hence, for a store holding a row with id `X`, the first delete of `X`
responds 200 and a second delete on the resulting store responds 404 and
leaves that store unchanged. -/
theorem C5_deletePost_twice (env : Env) (s : Store) (X : String) (hf : NoFault env) :
    ((deletePost env s .fresh X).1.Sublist s ∧
      (∀ r, r ∈ (deletePost env s .fresh X).1 ↔ r ∈ s ∧ r.id ≠ X) ∧
      (∀ r, r.id ≠ X → (deletePost env s .fresh X).1.count r = s.count r)) ∧
    (((deletePost env s .fresh X).2.status = 200 ↔
        (deletePost env s .fresh X).1.length < s.length) ∧
      ((deletePost env s .fresh X).2.status = 404 ↔
        (deletePost env s .fresh X).1.length = s.length) ∧
      ((deletePost env s .fresh X).2.status = 404 ↔ (deletePost env s .fresh X).1 = s)) ∧
    ((∃ r ∈ s, r.id = X) →
      (deletePost env s .fresh X).2.status = 200 ∧
      (deletePost env (deletePost env s .fresh X).1 .fresh X).2.status = 404 ∧
      (deletePost env (deletePost env s .fresh X).1 .fresh X).1
        = (deletePost env s .fresh X).1) := by
  have hle := List.length_filter_le (fun r : Row => decide (r.id ≠ X)) s
  have hiff := filter_ne_length_eq_iff s X
  have hself : (s.filter (fun r => decide (r.id ≠ X))).filter (fun r => decide (r.id ≠ X))
      = s.filter (fun r => decide (r.id ≠ X)) := by
    rw [List.filter_filter]; simp
  simp only [deletePost_ok env _ X hf, hself]
  refine ⟨⟨List.filter_sublist s, ?_, ?_⟩, ⟨?_, ?_, ?_⟩, ?_⟩
  · intro r
    rw [List.mem_filter]
    simp
  · intro r hr
    rw [List.count_filter]
    simpa using hr
  · by_cases h : (s.filter (fun r => decide (r.id ≠ X))).length = s.length
    · rw [if_pos h]
      constructor
      · intro h2; exact absurd h2 (by decide)
      · intro h2; omega
    · rw [if_neg h]
      constructor
      · intro _; omega
      · intro _; rfl
  · by_cases h : (s.filter (fun r => decide (r.id ≠ X))).length = s.length
    · rw [if_pos h]
      exact ⟨fun _ => h, fun _ => rfl⟩
    · rw [if_neg h]
      constructor
      · intro h2; exact absurd h2 (by decide)
      · intro h2; exact absurd h2 h
  · by_cases h : (s.filter (fun r => decide (r.id ≠ X))).length = s.length
    · rw [if_pos h]
      refine ⟨fun _ => ?_, fun _ => rfl⟩
      rw [List.filter_eq_self]
      simpa using hiff.1 h
    · rw [if_neg h]
      constructor
      · intro h2; exact absurd h2 (by decide)
      · intro h2; rw [h2] at h; exact absurd rfl h
  · rintro ⟨r, hr, hid⟩
    have hne : ¬ (s.filter (fun r => decide (r.id ≠ X))).length = s.length := by
      intro h
      exact (hiff.1 h) r hr hid
    rw [if_neg hne]
    exact ⟨rfl, rfl, trivial⟩

/-- C5, witness: deleting post `0002` of the reference table twice. -/
theorem C5_deletePost_twice_witness :
    NoFault refEnv ∧ (∃ r ∈ refStore, r.id = "0002") ∧
    (deletePost refEnv refStore .fresh "0002").2.status = 200 ∧
    (deletePost refEnv (deletePost refEnv refStore .fresh "0002").1 .fresh "0002").2.status
      = 404 ∧
    (deletePost refEnv (deletePost refEnv refStore .fresh "0002").1 .fresh "0002").1
      = (deletePost refEnv refStore .fresh "0002").1 :=
  ⟨fun _ => rfl, by decide,
    (C5_deletePost_twice refEnv refStore "0002" (fun _ => rfl)).2.2 (by decide)⟩

/-! ## C6: the default limit -/

/-- C7 (the code departs from it): in `getPostsDateRange`, for well-formed
dates with no row in range and store calls that succeed, the response is 200
with `count = 0`, and its `posts` member is JSON `null`, not an empty array:
the `nil` slice is encoded without `postsOrDefault`. -/
theorem C7_getPostsDateRange_posts_null (env : Env) (s : Store)
    (StartDate EndDate pageStr limitStr : String) (ts te : Time) (d1 d2 L : Int)
    (hf : NoFault env) (hs : StartDate ≠ "") (he : EndDate ≠ "")
    (hps : env.timeParse StartDate = some ts) (hpe : env.timeParse EndDate = some te)
    (hc1 : env.castDate (env.timeFormat ts) = some d1)
    (hc2 : env.castDate (env.timeFormat te) = some d2)
    (hl : limitOfRange env s limitStr = .ok L) (hL0 : 0 ≤ L)
    (ho : 0 ≤ offsetOf (pageOf pageStr) L)
    (hnone : matchRange env s d1 d2 = []) :
    (getPostsDateRange env s .fresh (.ok (StartDate, EndDate)) pageStr limitStr).status = 200 ∧
    respField (getPostsDateRange env s .fresh (.ok (StartDate, EndDate)) pageStr limitStr)
      "posts" = some .null ∧
    respField (getPostsDateRange env s .fresh (.ok (StartDate, EndDate)) pageStr limitStr)
      "count" = some (.num 0) := by
  rw [getPostsDateRange_ok env s StartDate EndDate pageStr limitStr ts te d1 d2 L hf hs he hps
    hpe hc1 hc2 hl hL0 ho, hnone]
  refine ⟨rfl, ?_, ?_⟩
  · rw [(respField_envelope _ 200).1]
    simp [scanned, postsToJson]
  · rw [(respField_envelope _ 200).2.1]
    simp

/-- C7, witness: `start_date` after `end_date`, with `limit=10`, over the
reference table. -/
theorem C7_getPostsDateRange_posts_null_witness :
    NoFault refEnv ∧ "2024-03-02" ≠ "" ∧ "2024-03-01" ≠ "" ∧
    refEnv.timeParse "2024-03-02" = some 63844934400 ∧
    refEnv.timeParse "2024-03-01" = some 63844848000 ∧
    refEnv.castDate (refEnv.timeFormat 63844934400) = some 738946 ∧
    refEnv.castDate (refEnv.timeFormat 63844848000) = some 738945 ∧
    limitOfRange refEnv refStore "10" = .ok 10 ∧ (0 : Int) ≤ 10 ∧
    0 ≤ offsetOf (pageOf "") 10 ∧ matchRange refEnv refStore 738946 738945 = [] ∧
    ((getPostsDateRange refEnv refStore .fresh (.ok ("2024-03-02", "2024-03-01")) "" "10").status
      = 200 ∧
    respField (getPostsDateRange refEnv refStore .fresh (.ok ("2024-03-02", "2024-03-01")) "" "10")
      "posts" = some .null ∧
    respField (getPostsDateRange refEnv refStore .fresh (.ok ("2024-03-02", "2024-03-01")) "" "10")
      "count" = some (.num 0)) :=
  ⟨fun _ => rfl, by decide, by decide, by decide, by decide, by decide, by decide, rfl,
    by decide, by decide, by decide,
    C7_getPostsDateRange_posts_null refEnv refStore "2024-03-02" "2024-03-01" "" "10"
      63844934400 63844848000 738946 738945 10 (fun _ => rfl) (by decide) (by decide)
      (by decide) (by decide) (by decide) (by decide) rfl (by decide) (by decide)
      (by decide)⟩

/-! ## C8: no match on an exact date -/

/-- C8 (as amended): in `getPostsDate`, when the store executes the query (no
driver fault, a `createdAt` the store casts to a date, a non-negative
effective limit and offset) and no stored row has a title matching the filter
and a `created_at` date equal to `createdAt`, the response is 404 with the
error body, and no envelope is written. -/
theorem C8_getPostsDate_not_found (env : Env) (s : Store)
    (pageStr limitStr title createdAt : String) (d : Int)
    (hf : NoFault env) (hd : env.castDate createdAt = some d)
    (hl : 0 ≤ limitOf env s limitStr)
    (ho : 0 ≤ offsetOf (pageOf pageStr) (limitOf env s limitStr))
    (hno : ∀ r ∈ s, ¬ (env.titleLike r.title title = true ∧ env.dateOf r.created_at = d)) :
    (getPostsDate env s .fresh pageStr limitStr title createdAt).status = 404 ∧
    (getPostsDate env s .fresh pageStr limitStr title createdAt).body
      = [mapToJson "error" "The searched post was not found."] ∧
    respField (getPostsDate env s .fresh pageStr limitStr title createdAt) "posts" = none := by
  have hm : matchDate env s title d = [] := by
    unfold matchDate
    rw [List.filter_eq_nil_iff]
    intro r hr
    have := hno r hr
    simpa using this
  rw [getPostsDate_ok_empty env s pageStr limitStr title createdAt d hf hd hl ho hm]
  exact ⟨rfl, rfl, rfl⟩

/-- C8, witness: no post of the reference table was created on 2099-01-01. -/
theorem C8_getPostsDate_not_found_witness :
    NoFault refEnv ∧ refEnv.castDate "2099-01-01" = some 766279 ∧
    0 ≤ limitOf refEnv refStore "" ∧
    0 ≤ offsetOf (pageOf "") (limitOf refEnv refStore "") ∧
    (∀ r ∈ refStore,
      ¬ (refEnv.titleLike r.title "" = true ∧ refEnv.dateOf r.created_at = 766279)) ∧
    ((getPostsDate refEnv refStore .fresh "" "" "" "2099-01-01").status = 404 ∧
    (getPostsDate refEnv refStore .fresh "" "" "" "2099-01-01").body
      = [mapToJson "error" "The searched post was not found."] ∧
    respField (getPostsDate refEnv refStore .fresh "" "" "" "2099-01-01") "posts" = none) :=
  ⟨fun _ => rfl, by decide, by decide, by decide, by decide,
    C8_getPostsDate_not_found refEnv refStore "" "" "" "2099-01-01" 766279 (fun _ => rfl)
      (by decide) (by decide) (by decide) (by decide)⟩

/-- C8, as stated, fails: no row of the reference table is dated 2099-01-01,
yet with `limit=-1` the store rejects the negative `LIMIT` and the response
is 500, not 404; likewise no row is dated `not-a-date`, a text the store
cannot cast to a date, and the response is 500. -/
theorem C8_counterexample :
    ((∀ r ∈ refStore,
        ¬ (refEnv.titleLike r.title "" = true ∧
            refEnv.castDate "2099-01-01" = some (refEnv.dateOf r.created_at))) ∧
      atoi "-1" = -1 ∧
      (getPostsDate refEnv refStore .fresh "" "-1" "" "2099-01-01").status = 500) ∧
    ((∀ r ∈ refStore,
        ¬ (refEnv.titleLike r.title "" = true ∧
            refEnv.castDate "not-a-date" = some (refEnv.dateOf r.created_at))) ∧
      (getPostsDate refEnv refStore .fresh "" "" "" "not-a-date").status = 500) :=
  ⟨⟨by decide, by decide, by decide⟩, ⟨by decide, by decide⟩⟩

/-! ## C9: the `Content-Type` header -/

/-- C9 (the code departs from it): `respondWithError` calls `WriteHeader`
before it sets `Content-Type`, so that no error response is sent with the
header (here the 400 of `createPostNew` for an empty title); `createPostNew`
calls `WriteHeader(201)` before `respondWithJSON`, so that its 201 response is
sent without it either.  Only `respondWithJSON` on a fresh writer sends
`Content-Type: application/json`. -/
theorem C9_content_type_not_sent (env : Env) (s : Store) (post : Post) (c : Nat) (e : String)
    (j : Json) :
    ((respondWithError .fresh c e).status = c ∧
      (respondWithError .fresh c e).body = [mapToJson "error" e] ∧
      (respondWithError .fresh c e).sentHeader "Content-Type" = none) ∧
    ((createPostNew env s .fresh (.ok { post with Title := "" })).2.status = 400 ∧
      (createPostNew env s .fresh (.ok { post with Title := "" })).2.sentHeader "Content-Type"
        = none) ∧
    (NoFault env → post.Title ≠ "" →
      (createPostNew env s .fresh (.ok post)).2.status = 201 ∧
      (createPostNew env s .fresh (.ok post)).2.sentHeader "Content-Type" = none) ∧
    (respondWithJSON .fresh j c).sentHeader "Content-Type" = some "application/json" := by
  refine ⟨⟨rfl, rfl, rfl⟩, ⟨rfl, rfl⟩, ?_, rfl⟩
  intro hf ht
  rw [createPostNew_ok env s post hf ht]
  exact ⟨rfl, rfl⟩

/-- C9, witness: over the reference table, `POST /posts` with an empty title
answers 400 and `POST /posts` with title `A` answers 201, both without the
`Content-Type` header. -/
theorem C9_content_type_not_sent_witness :
    NoFault refEnv ∧ ("A" : String) ≠ "" ∧
    ((createPostNew refEnv refStore .fresh (.ok { Post.zero with Title := "" })).2.status = 400 ∧
      (createPostNew refEnv refStore .fresh (.ok { Post.zero with Title := "" })).2.sentHeader
        "Content-Type" = none) ∧
    ((createPostNew refEnv refStore .fresh (.ok { Post.zero with Title := "A" })).2.status = 201 ∧
      (createPostNew refEnv refStore .fresh (.ok { Post.zero with Title := "A" })).2.sentHeader
        "Content-Type" = none) :=
  ⟨fun _ => rfl, by decide,
    (C9_content_type_not_sent refEnv refStore Post.zero 400 "" .null).2.1,
    (C9_content_type_not_sent refEnv refStore { Post.zero with Title := "A" } 400 "" .null).2.2.1
      (fun _ => rfl) (by decide)⟩

/-! ## C10: rows per page -/

end Posts
